import Mathlib

/-!
Verification of the core of PortForwardingGUI: the tunnel entity and the
encrypted session store (`src/SSHTunnel.py`) and the cipher engine
(`src/encryption.py`).

Modelling conventions:
* Byte strings are `List Nat` (each entry a byte value).
* External library primitives (HMAC-SHA-256 as PBKDF2's PRF, the AES-CBC
  block-cipher core, base64, UTF-8 codecs, the JSON codec) are collaborator
  functions collected in `ExtLib`; the behaviour the repository's code relies
  on is stated as explicit hypotheses of the theorems.  Everything the
  repository itself computes (the PBKDF2 iteration structure and parameters,
  PKCS#7 padding and unpadding, the salt/iv/ciphertext layout, the tunnel
  entity and session store logic) is embedded concretely.
* Python exceptions are `Except`; Python's in-place mutation of `self` is
  explicit state passing (operations return an outcome together with the
  post-state, since a raised exception still leaves the mutated object with
  the caller).
* The two calls to `os.urandom(16)` inside `encrypt` are modelled by passing
  the drawn `salt` and `iv` as explicit arguments.
-/

namespace PFG

/-- Byte strings: lists of byte values. -/
abbrev Bytes := List Nat

/-- Error taxonomy of the cipher engine and session store (spec section 7),
mapped onto the distinct `ValueError` / `binascii.Error` / `UnicodeDecodeError`
/ `json` failure points of the Python code:
`format` is a malformed or too-short payload (base64 failure, bad IV size,
ciphertext not a multiple of the block length), `integrity` is a PKCS#7
padding failure, `unicode` is a UTF-8 decode failure of the plaintext, and
`deserialization` is a JSON parse/shape failure in `load_tunnels`. -/
inductive Err
  | format
  | integrity
  | unicode
  | deserialization
  deriving DecidableEq, Repr

/-- Big-endian 4-byte block index, `INT(i)` of PBKDF2 (RFC 2898). -/
def int32be (i : Nat) : Bytes :=
  [i / 2 ^ 24 % 256, i / 2 ^ 16 % 256, i / 2 ^ 8 % 256, i % 256]

/-- Pointwise xor of two byte strings. -/
def xorBytes (a b : Bytes) : Bytes :=
  List.zipWith (fun x y => Nat.xor x y) a b

/-- The inner iteration of one PBKDF2 block: given the previous `U` value and
the running xor-accumulator, apply the PRF `n` more times. -/
def pbkdf2Iter (prf : Bytes → Bytes → Bytes) (pw : Bytes) :
    Bytes → Bytes → Nat → Bytes
  | _, acc, 0 => acc
  | u, acc, n + 1 =>
    let u2 := prf pw u
    pbkdf2Iter prf pw u2 (xorBytes acc u2) n

/-- One PBKDF2 output block `T_i = U_1 xor ... xor U_c` with
`U_1 = PRF(pw, salt || INT(i))` and `U_j = PRF(pw, U_(j-1))`. -/
def pbkdf2Block (prf : Bytes → Bytes → Bytes) (pw salt : Bytes)
    (iters i : Nat) : Bytes :=
  let u1 := prf pw (salt ++ int32be i)
  pbkdf2Iter prf pw u1 u1 (iters - 1)

/-- PBKDF2 (RFC 2898): concatenate `ceil(dkLen / 32)` blocks of the 32-byte
PRF and truncate to `dkLen` bytes.  This is the computation performed by the
`PBKDF2HMAC` object that `derive_key` builds and immediately uses. -/
def pbkdf2 (prf : Bytes → Bytes → Bytes) (pw salt : Bytes)
    (iters dkLen : Nat) : Bytes :=
  (((List.range ((dkLen + 31) / 32)).map
      (fun i => pbkdf2Block prf pw salt iters (i + 1))).flatten).take dkLen

/-- The dictionary produced by `SSHTunnel.to_dict` (and consumed by
`SSHTunnel(**d)` in `load_tunnels`): exactly the nine persisted fields. -/
structure TunnelDict where
  name : String
  local_ip : String
  local_port : Int
  host_ip : String
  host_port : Int
  server_port : Int
  user : String
  password : String
  server_ip : String
  deriving DecidableEq, Repr

/-- The external `sshtunnel.SSHTunnelForwarder` handle, as far as the
repository observes it: the parameters it was constructed with and its
`is_active` attribute. -/
structure Forwarder where
  ssh_address_or_host : String × Int
  remote_bind_address : String × Int
  local_bind_address : String × Int
  ssh_username : String
  ssh_password : String
  is_active : Bool
  deriving DecidableEq, Repr

/-- The `SSHTunnel` object: the nine configuration fields assigned by
`__init__` plus the private `_tunnel` handle (`None` when no handle exists). -/
structure SSHTunnel where
  name : String
  local_ip : String
  local_port : Int
  host_ip : String
  host_port : Int
  server_port : Int
  user : String
  password : String
  server_ip : String
  _tunnel : Option Forwarder
  deriving DecidableEq, Repr

/-- `SSHTunnel.__init__`.  Parameters appear in the Python order; the Python
defaults are `name=""`, `local_ip="127.0.0.1"`, `server_ip=None`,
`server_port=22` (callers below always pass all arguments explicitly).
`self.server_ip = host_ip if not server_ip else server_ip` tests Python
falsiness, so both `None` and the empty string select `host_ip`.
No validation of any field is performed. -/
def SSHTunnel.init (local_port : Int) (host_ip : String) (host_port : Int)
    (user : String) (password : String) (name : String) (local_ip : String)
    (server_ip : Option String) (server_port : Int) : SSHTunnel :=
  { name := name
    local_ip := local_ip
    local_port := local_port
    host_ip := host_ip
    host_port := host_port
    server_port := server_port
    user := user
    password := password
    server_ip :=
      match server_ip with
      | none => host_ip
      | some s => if s = "" then host_ip else s
    _tunnel := none }

/-- `SSHTunnel.is_active`: `False` when no handle exists, otherwise the
handle's `is_active` attribute. -/
def SSHTunnel.is_active (t : SSHTunnel) : Bool :=
  match t._tunnel with
  | none => false
  | some f => f.is_active

/-- `SSHTunnel.start`.  The outcome of the underlying
`SSHTunnelForwarder.start()` network connect (an external effect) is passed
as `connect`; on success the handle reports active, on failure the raised
exception propagates (the repository code has no handler) while `self`
keeps the handle that was created before the connect attempt.
Returns the outcome together with the post-state of `self`. -/
def SSHTunnel.start (t : SSHTunnel) (connect : Except String Unit) :
    Except String Unit × SSHTunnel :=
  let f : Forwarder :=
    match t._tunnel with
    | none =>
      { ssh_address_or_host := (t.server_ip, t.server_port)
        remote_bind_address := (t.host_ip, t.host_port)
        local_bind_address := (t.local_ip, t.local_port)
        ssh_username := t.user
        ssh_password := t.password
        is_active := false }
    | some f0 => f0
  let t1 : SSHTunnel := { t with _tunnel := some f }
  if t1.is_active then (.ok (), t1)
  else
    match connect with
    | .error e => (.error e, t1)
    | .ok _ => (.ok (), { t1 with _tunnel := some { f with is_active := true } })

/-- `SSHTunnel.stop`.  The outcome of the underlying
`self._tunnel.stop(force=True)` teardown is passed as `teardown`; the
repository code has no handler around it, so a raised exception propagates
before `self._tunnel = None` is executed.  Returns the outcome together with
the post-state of `self`. -/
def SSHTunnel.stop (t : SSHTunnel) (teardown : Except String Unit) :
    Except String Unit × SSHTunnel :=
  if t.is_active then
    match teardown with
    | .error e => (.error e, t)
    | .ok _ => (.ok (), { t with _tunnel := none })
  else (.ok (), { t with _tunnel := none })

/-- `SSHTunnel.to_dict`. -/
def SSHTunnel.to_dict (t : SSHTunnel) : TunnelDict :=
  { name := t.name
    local_ip := t.local_ip
    local_port := t.local_port
    host_ip := t.host_ip
    host_port := t.host_port
    server_port := t.server_port
    user := t.user
    password := t.password
    server_ip := t.server_ip }

/-- `SSHTunnel(**d)` as performed by `load_tunnels`: every key of the dict is
passed as the keyword argument of the same name to `__init__`. -/
def SSHTunnel.ofDict (d : TunnelDict) : SSHTunnel :=
  SSHTunnel.init d.local_port d.host_ip d.host_port d.user d.password
    d.name d.local_ip (some d.server_ip) d.server_port

/-- The external library primitives consumed by `encryption.py` and
`SSHTunnel.py`, abstracted as collaborator functions:
`prf` is HMAC-SHA-256 (the pseudorandom function inside `PBKDF2HMAC`),
`aesCbcEnc`/`aesCbcDec` are the AES-CBC core (`cipher.encryptor()` /
`cipher.decryptor()` run over a whole padded payload, key and IV given),
`b64encode`/`b64decode` are `base64.b64encode`/`b64decode` (the encoded text
is modelled as its ASCII bytes), `utf8enc`/`utf8dec` are `str.encode` /
`bytes.decode`, and `dumps`/`loads` are `json.dumps`/`json.loads` composed
with the fixed nine-key dict shape of `to_dict` / `SSHTunnel(**d)`. -/
structure ExtLib where
  prf : Bytes → Bytes → Bytes
  aesCbcEnc : Bytes → Bytes → Bytes → Bytes
  aesCbcDec : Bytes → Bytes → Bytes → Bytes
  b64encode : Bytes → Bytes
  b64decode : Bytes → Except Err Bytes
  utf8enc : String → Bytes
  utf8dec : Bytes → Except Err String
  dumps : List TunnelDict → String
  loads : String → Except Err (List TunnelDict)

/-- `derive_key(password, salt, length=32)`: builds a `PBKDF2HMAC` with
SHA-256, the requested length, the given salt and 100000 iterations, and
derives from `password.encode()`. -/
def derive_key (lib : ExtLib) (password : String) (salt : Bytes)
    (length : Nat) : Bytes :=
  pbkdf2 lib.prf (lib.utf8enc password) salt 100000 length

/-- PKCS#7 padding at the AES block size (`algorithms.AES.block_size` is 128
bits, so 16 bytes): append `16 - len % 16` copies of that value. -/
def pkcs7pad (data : Bytes) : Bytes :=
  let padLen := 16 - data.length % 16
  data ++ List.replicate padLen padLen

/-- PKCS#7 unpadding at the 16-byte block size, as performed by the
`padding.PKCS7(...).unpadder()`: the buffered data must be a non-empty
multiple of the block size, the last byte `p` must be in `[1, 16]`, and the
last `p` bytes must all equal `p`; otherwise a padding `ValueError` is
raised (modelled as `Err.integrity`, the spec's IntegrityError). -/
def pkcs7unpad (data : Bytes) : Except Err Bytes :=
  if data.length = 0 ∨ data.length % 16 ≠ 0 then .error .integrity
  else if data.getLastD 0 = 0 ∨ 16 < data.getLastD 0 then .error .integrity
  else if (data.drop (data.length - data.getLastD 0)).all
      (fun b => b = data.getLastD 0) then
    .ok (data.take (data.length - data.getLastD 0))
  else .error .integrity

/-- `encrypt(message, password)`: the two fresh 16-byte draws from
`os.urandom` are the explicit `salt` and `iv` arguments; the key is derived
from the password and salt, the UTF-8 bytes of the message are PKCS#7 padded
and AES-CBC encrypted, and the result is the base64 encoding of
`salt + iv + ciphertext`. -/
def encrypt (lib : ExtLib) (salt iv : Bytes) (message password : String) :
    Bytes :=
  let key := derive_key lib password salt 32
  let padded_message := pkcs7pad (lib.utf8enc message)
  let ciphertext := lib.aesCbcEnc key iv padded_message
  lib.b64encode (salt ++ iv ++ ciphertext)

/-- `decrypt(encrypted_message, password)`: base64-decode, split off the
first 16 bytes as salt and the next 16 as IV, re-derive the key, AES-CBC
decrypt the remainder and remove the PKCS#7 padding, then UTF-8 decode.
The library's checkpoints are modelled where the Python code hits them:
`modes.CBC(iv)` rejects an IV that is not exactly 16 bytes and
`decryptor.finalize()` rejects a ciphertext that is not a multiple of the
block length (both `ValueError`s on malformed payloads, `Err.format`); the
unpadder's padding failure is `Err.integrity`. -/
def decrypt (lib : ExtLib) (encrypted_message : Bytes) (password : String) :
    Except Err String :=
  match lib.b64decode encrypted_message with
  | .error e => .error e
  | .ok encrypted_data =>
    let salt := encrypted_data.take 16
    let iv := (encrypted_data.drop 16).take 16
    let ciphertext := encrypted_data.drop 32
    let key := derive_key lib password salt 32
    if iv.length ≠ 16 then .error .format
    else if ciphertext.length % 16 ≠ 0 then .error .format
    else
      match pkcs7unpad (lib.aesCbcDec key iv ciphertext) with
      | .error e => .error e
      | .ok message => lib.utf8dec message

/-- `save_tunnels(tunnels, path, password)`: serialize `[t.to_dict() ...]`
with `json.dumps`, encrypt, and write.  The filesystem write is the
identity on the produced text (returned here as the file's content); the
`salt` and `iv` are `encrypt`'s two random draws. -/
def save_tunnels (lib : ExtLib) (salt iv : Bytes) (tunnels : List SSHTunnel)
    (password : String) : Bytes :=
  let data := tunnels.map SSHTunnel.to_dict
  let json_str := lib.dumps data
  encrypt lib salt iv json_str password

/-- `load_tunnels(path, password)`: read the file's content, decrypt
(errors propagate unchanged), `json.loads`, and rebuild each entry with
`SSHTunnel(**d)`. -/
def load_tunnels (lib : ExtLib) (fileData : Bytes) (password : String) :
    Except Err (List SSHTunnel) :=
  match decrypt lib fileData password with
  | .error e => .error e
  | .ok data =>
    match lib.loads data with
    | .error e => .error e
    | .ok ds => .ok (ds.map SSHTunnel.ofDict)

/-- The spec's validity notion for a TunnelSpec (spec section 3 invariants):
all three ports in `[1, 65535]` and a non-empty `server_ip`. -/
def SSHTunnel.portsValid (t : SSHTunnel) : Prop :=
  (1 ≤ t.local_port ∧ t.local_port ≤ 65535) ∧
  (1 ≤ t.host_port ∧ t.host_port ≤ 65535) ∧
  (1 ≤ t.server_port ∧ t.server_port ≤ 65535)

/-- A valid TunnelSpec in the spec's sense. -/
def SSHTunnel.validSpec (t : SSHTunnel) : Prop :=
  t.portsValid ∧ t.server_ip ≠ ""

instance (t : SSHTunnel) : Decidable t.portsValid := by
  unfold SSHTunnel.portsValid; infer_instance

instance (t : SSHTunnel) : Decidable t.validSpec := by
  unfold SSHTunnel.validSpec; infer_instance

/-- The serialized session payload: `json.dumps([t.to_dict() for t in tunnels])`. -/
def sessionPlain (lib : ExtLib) (tunnels : List SSHTunnel) : String :=
  lib.dumps (tunnels.map SSHTunnel.to_dict)

/-- The AES-CBC ciphertext produced inside `encrypt` during `save_tunnels`. -/
def sessionCipher (lib : ExtLib) (salt iv : Bytes) (tunnels : List SSHTunnel)
    (password : String) : Bytes :=
  lib.aesCbcEnc (derive_key lib password salt 32) iv
    (pkcs7pad (lib.utf8enc (sessionPlain lib tunnels)))

/-- A trivial PRF instance used to exercise the theorems at concrete inputs. -/
def toyPrf : Bytes → Bytes → Bytes := fun _ _ => List.replicate 32 0

/-- The concrete TunnelSpec of the spec's section 8 scenario. -/
def dbTunnel : SSHTunnel :=
  SSHTunnel.init 5432 "10.0.0.5" 5432 "alice" "secret" "db" "127.0.0.1"
    (some "bastion.example.com") 22

/-- A live forwarder handle for the section 8 scenario. -/
def dbForwarder : Forwarder :=
  { ssh_address_or_host := ("bastion.example.com", 22)
    remote_bind_address := ("10.0.0.5", 5432)
    local_bind_address := ("127.0.0.1", 5432)
    ssh_username := "alice"
    ssh_password := "secret"
    is_active := true }

/-- The section 8 tunnel holding a live (active) handle. -/
def dbActive : SSHTunnel := { dbTunnel with _tunnel := some dbForwarder }

/-- A concrete `ExtLib` instance with trivial collaborators, used to exercise
the theorems at concrete inputs (the cipher core and base64 are identities,
the JSON codec is fixed to the section 8 payload). -/
def toyLib : ExtLib :=
  { prf := toyPrf
    aesCbcEnc := fun _ _ m => m
    aesCbcDec := fun _ _ c => c
    b64encode := fun bs => bs
    b64decode := fun bs => .ok bs
    utf8enc := fun _ => []
    utf8dec := fun _ => .ok ""
    dumps := fun _ => ""
    loads := fun _ => .ok [dbTunnel.to_dict] }

/-- A concrete 16-byte salt. -/
def salt16 : Bytes := List.replicate 16 0

/-- A concrete 16-byte IV. -/
def iv16 : Bytes := List.replicate 16 1

/-! ## Helper lemmas -/

theorem xorBytes_length (a b : Bytes) :
    (xorBytes a b).length = min a.length b.length :=
  List.length_zipWith ..

theorem pbkdf2Iter_length (prf : Bytes → Bytes → Bytes) (pw : Bytes)
    (hprf : ∀ k m, (prf k m).length = 32) (n : Nat) :
    ∀ (u acc : Bytes), acc.length = 32 →
      (pbkdf2Iter prf pw u acc n).length = 32 := by
  induction n with
  | zero => intro u acc hacc; simpa [pbkdf2Iter] using hacc
  | succ n ih =>
    intro u acc hacc
    simp only [pbkdf2Iter]
    exact ih _ _ (by simp [xorBytes_length, hacc, hprf])

theorem pbkdf2Block_length (prf : Bytes → Bytes → Bytes) (pw salt : Bytes)
    (hprf : ∀ k m, (prf k m).length = 32) (iters i : Nat) :
    (pbkdf2Block prf pw salt iters i).length = 32 := by
  simp only [pbkdf2Block]
  exact pbkdf2Iter_length prf pw hprf _ _ _ (hprf ..)

theorem pbkdf2_length (prf : Bytes → Bytes → Bytes) (pw salt : Bytes)
    (hprf : ∀ k m, (prf k m).length = 32) (iters dkLen : Nat) :
    (pbkdf2 prf pw salt iters dkLen).length = dkLen := by
  simp only [pbkdf2]
  rw [List.length_take, List.length_flatten, List.map_map]
  have h1 : (List.range ((dkLen + 31) / 32)).map
        (List.length ∘ fun i => pbkdf2Block prf pw salt iters (i + 1))
      = (List.range ((dkLen + 31) / 32)).map (fun _ => 32) :=
    List.map_congr_left (fun i _ => pbkdf2Block_length prf pw salt hprf iters (i + 1))
  rw [h1, List.map_const', List.sum_replicate, List.length_range, smul_eq_mul]
  omega

theorem pkcs7pad_eq (d : Bytes) :
    pkcs7pad d = d ++ List.replicate (16 - d.length % 16) (16 - d.length % 16) :=
  rfl

theorem pkcs7pad_length (d : Bytes) :
    (pkcs7pad d).length = d.length + (16 - d.length % 16) := by
  simp [pkcs7pad]

theorem pkcs7pad_length_mod (d : Bytes) : (pkcs7pad d).length % 16 = 0 := by
  rw [pkcs7pad_length]; omega

/-- PKCS#7 unpadding inverts PKCS#7 padding. -/
theorem pkcs7unpad_pad (d : Bytes) : pkcs7unpad (pkcs7pad d) = .ok d := by
  have hmod : d.length % 16 < 16 := Nat.mod_lt _ (by omega)
  set p := 16 - d.length % 16 with hp
  have hp1 : 1 ≤ p := by omega
  have hp16 : p ≤ 16 := by omega
  have hlen : (pkcs7pad d).length = d.length + p := by
    simp [pkcs7pad, ← hp]
  have hlast : (pkcs7pad d).getLastD 0 = p := by
    rw [pkcs7pad_eq, ← hp]
    obtain ⟨m, hm⟩ : ∃ m, p = m + 1 := ⟨p - 1, by omega⟩
    rw [hm, List.replicate_succ', ← List.append_assoc]
    simp
  have hsub : (pkcs7pad d).length - p = d.length := by rw [hlen]; omega
  have hdrop : (pkcs7pad d).drop ((pkcs7pad d).length - p) = List.replicate p p := by
    rw [hsub]
    conv_lhs => rw [pkcs7pad_eq, ← hp]
    exact List.drop_left ..
  have htake : (pkcs7pad d).take ((pkcs7pad d).length - p) = d := by
    rw [hsub]
    conv_lhs => rw [pkcs7pad_eq, ← hp]
    exact List.take_left ..
  unfold pkcs7unpad
  rw [if_neg (by rw [hlen]; push_neg; exact ⟨by omega, by omega⟩)]
  rw [hlast, if_neg (by omega), hdrop, htake]
  rw [if_pos (by simp [List.all_eq_true])]

/-- `pkcs7unpad` only ever fails with a padding (integrity) error. -/
theorem pkcs7unpad_error_integrity (data : Bytes) (er : Err)
    (h : pkcs7unpad data = .error er) : er = .integrity := by
  unfold pkcs7unpad at h
  split at h
  · injection h with h; exact h.symm
  · split at h
    · injection h with h; exact h.symm
    · split at h
      · exact absurd h (by simp)
      · injection h with h; exact h.symm

/-- `decrypt` on a blob that base64-decodes to `salt ++ iv ++ ct` (with
16-byte salt and IV) splits it exactly there: the key is derived from the
first 16 bytes, the next 16 are the IV, and the remainder is the
ciphertext. -/
theorem decrypt_splits (lib : ExtLib) (salt iv ct : Bytes) (password : String)
    (e : Bytes) (hsalt : salt.length = 16) (hiv : iv.length = 16)
    (hdec : lib.b64decode e = .ok (salt ++ iv ++ ct)) :
    decrypt lib e password =
      if ct.length % 16 ≠ 0 then .error .format
      else
        match pkcs7unpad (lib.aesCbcDec (derive_key lib password salt 32) iv ct) with
        | .error er => .error er
        | .ok message => lib.utf8dec message := by
  have htake : (salt ++ iv ++ ct).take 16 = salt := by
    rw [List.append_assoc, ← hsalt]; exact List.take_left ..
  have hdrop16 : (salt ++ iv ++ ct).drop 16 = iv ++ ct := by
    rw [List.append_assoc, ← hsalt]; exact List.drop_left ..
  have hiv2 : ((salt ++ iv ++ ct).drop 16).take 16 = iv := by
    rw [hdrop16, ← hiv]; exact List.take_left ..
  have hct : (salt ++ iv ++ ct).drop 32 = ct := by
    have h32 : (32 : Nat) = 16 + 16 := rfl
    rw [h32, ← List.drop_drop, hdrop16, ← hiv]
    exact List.drop_left ..
  simp only [decrypt, hdec, htake, hiv2, hct]
  rw [if_neg (by simp [hiv])]

/-- Rebuilding a tunnel from its own dict restores every field and yields a
fresh handle-free tunnel, provided `server_ip` is non-empty (it would
otherwise be re-defaulted to `host_ip` by Python falsiness). -/
theorem ofDict_to_dict (t : SSHTunnel) (h : t.server_ip ≠ "") :
    SSHTunnel.ofDict t.to_dict = { t with _tunnel := none } := by
  simp [SSHTunnel.ofDict, SSHTunnel.to_dict, SSHTunnel.init, h]

/-! ## Claims -/

/-- C1: saving an ordered list of valid TunnelSpecs with a password and
loading it back with the same password returns the same list field-for-field
(all nine fields) in the same order, with every returned tunnel Inactive
(no connection handle).  The collaborator round-trip facts (base64, AES-CBC,
UTF-8, JSON) are stated at the values the pipeline produces. -/
theorem C1_save_load_round_trip (lib : ExtLib) (salt iv : Bytes)
    (tunnels : List SSHTunnel) (password : String)
    (hsalt : salt.length = 16) (hiv : iv.length = 16)
    (hvalid : ∀ t ∈ tunnels, t.validSpec)
    (hb64 : lib.b64decode
        (lib.b64encode (salt ++ iv ++ sessionCipher lib salt iv tunnels password)) =
      .ok (salt ++ iv ++ sessionCipher lib salt iv tunnels password))
    (haes : lib.aesCbcDec (derive_key lib password salt 32) iv
        (sessionCipher lib salt iv tunnels password) =
      pkcs7pad (lib.utf8enc (sessionPlain lib tunnels)))
    (hutf8 : lib.utf8dec (lib.utf8enc (sessionPlain lib tunnels)) =
      .ok (sessionPlain lib tunnels))
    (hctlen : (sessionCipher lib salt iv tunnels password).length % 16 = 0)
    (hjson : lib.loads (sessionPlain lib tunnels) =
      .ok (tunnels.map SSHTunnel.to_dict)) :
    load_tunnels lib (save_tunnels lib salt iv tunnels password) password =
      .ok (tunnels.map (fun t => { t with _tunnel := none })) := by
  have hsave : save_tunnels lib salt iv tunnels password =
      lib.b64encode (salt ++ iv ++ sessionCipher lib salt iv tunnels password) := rfl
  have hdec := decrypt_splits lib salt iv
    (sessionCipher lib salt iv tunnels password) password _ hsalt hiv hb64
  rw [if_neg (by simp [hctlen])] at hdec
  rw [haes, pkcs7unpad_pad] at hdec
  simp only [] at hdec
  rw [hutf8] at hdec
  simp only [load_tunnels, hsave, hdec, hjson, List.map_map]
  congr 1
  exact List.map_congr_left (fun t ht => ofDict_to_dict t ((hvalid t ht).2))

/-- C1 witness: the spec's section 8 scenario round-trips under the concrete
collaborator instance. -/
theorem C1_witness :
    load_tunnels toyLib (save_tunnels toyLib salt16 iv16 [dbTunnel] "hunter2")
        "hunter2" =
      .ok ([dbTunnel].map (fun t => { t with _tunnel := none })) :=
  C1_save_load_round_trip toyLib salt16 iv16 [dbTunnel] "hunter2"
    (by decide) (by decide) (by decide) rfl rfl rfl (by decide) rfl

/-- C3: when the base64-decoded input is shorter than 32 bytes (too short for
salt plus IV) `decrypt` fails with a FormatError, and `decrypt` fails with an
IntegrityError exactly when PKCS#7 padding removal over the decrypted bytes
finds an invalid pad. -/
theorem C3_short_blob (lib : ExtLib) (password : String) (e data : Bytes)
    (hdec : lib.b64decode e = .ok data)
    (hutf8err : ∀ bs, lib.utf8dec bs ≠ .error .integrity) :
    (data.length < 32 → decrypt lib e password = .error .format) ∧
    (decrypt lib e password = .error .integrity ↔
      ((data.drop 16).take 16).length = 16 ∧ (data.drop 32).length % 16 = 0 ∧
      pkcs7unpad (lib.aesCbcDec (derive_key lib password (data.take 16) 32)
        ((data.drop 16).take 16) (data.drop 32)) = .error .integrity) := by
  constructor
  · intro hlt
    have hne : ((data.drop 16).take 16).length ≠ 16 := by
      simp only [List.length_take, List.length_drop]
      omega
    simp only [decrypt, hdec]
    rw [if_pos hne]
  · by_cases h1 : ((data.drop 16).take 16).length = 16
    · simp only [decrypt, hdec]
      rw [if_neg (not_not_intro h1)]
      by_cases h2 : (data.drop 32).length % 16 = 0
      · rw [if_neg (not_not_intro h2)]
        cases hu : pkcs7unpad (lib.aesCbcDec
            (derive_key lib password (data.take 16) 32)
            ((data.drop 16).take 16) (data.drop 32)) with
        | error er =>
          have her : er = .integrity := pkcs7unpad_error_integrity _ _ hu
          subst her
          simp only [hu]
          exact ⟨fun _ => ⟨h1, h2, trivial⟩, fun _ => trivial⟩
        | ok m =>
          simp [hu, hutf8err m]
      · rw [if_pos h2]
        constructor
        · intro h; exact absurd h (by simp)
        · rintro ⟨-, hc, -⟩; exact absurd hc h2
    · simp only [decrypt, hdec]
      rw [if_pos h1]
      constructor
      · intro h; exact absurd h (by simp)
      · rintro ⟨hc, -, -⟩; exact absurd hc h1

/-- C3 witness: a 10-byte blob is rejected with a FormatError under the
concrete collaborator instance. -/
theorem C3_witness :
    decrypt toyLib (List.replicate 10 0) "hunter2" = .error .format :=
  (C3_short_blob toyLib "hunter2" (List.replicate 10 0) (List.replicate 10 0)
    rfl (fun bs => by simp [toyLib])).1 (by decide)

/-- C4 counterexample: `SSHTunnel.__init__` performs no validation, so a
TunnelSpec with `local_port = 0` is constructed successfully and violates the
claimed port invariant. -/
theorem C4_cex :
    ¬ (SSHTunnel.init 0 "10.0.0.5" 5432 "alice" "secret" "db" "127.0.0.1"
        none 22).portsValid := by
  decide

/-- C4 (amended): construction performs no port validation at all — every
port value, in range or not, is accepted and stored verbatim. -/
theorem C4_no_port_validation (local_port host_port server_port : Int)
    (host_ip user password name local_ip : String) (server_ip : Option String) :
    (SSHTunnel.init local_port host_ip host_port user password name local_ip
      server_ip server_port).local_port = local_port ∧
    (SSHTunnel.init local_port host_ip host_port user password name local_ip
      server_ip server_port).host_port = host_port ∧
    (SSHTunnel.init local_port host_ip host_port user password name local_ip
      server_ip server_port).server_port = server_port :=
  ⟨rfl, rfl, rfl⟩

/-- C5 counterexample: when the underlying teardown raises, `stop()` has no
handler — the error propagates to the caller and the tunnel keeps its live
handle (still reports active), contradicting the claim that `stop()` never
raises and always leaves the tunnel Inactive. -/
theorem C5_cex :
    (dbActive.stop (.error "teardown failed")).1 = .error "teardown failed" ∧
    ((dbActive.stop (.error "teardown failed")).2).is_active = true :=
  ⟨rfl, rfl⟩

/-- C5 (amended): whenever the underlying teardown does not raise — in
particular on a second `stop()` of an already-Inactive tunnel — `stop()`
returns normally and the tunnel ends Inactive with its handle discarded; but
a raised teardown error propagates and the handle is retained. -/
theorem C5_stop_best_effort (t : SSHTunnel) (teardown : Except String Unit)
    (h : teardown = .ok () ∨ t.is_active = false) :
    (t.stop teardown).1 = .ok () ∧
    ((t.stop teardown).2).is_active = false ∧
    ((t.stop teardown).2)._tunnel = none := by
  unfold SSHTunnel.stop
  rcases h with h | h
  · subst h
    by_cases ha : t.is_active = true
    · rw [if_pos ha]; exact ⟨rfl, rfl, rfl⟩
    · rw [if_neg ha]; exact ⟨rfl, rfl, rfl⟩
  · rw [if_neg (by simp [h])]
    exact ⟨rfl, rfl, rfl⟩

/-- C5 witness: a second `stop()` on the Inactive section 8 tunnel is a
no-op that does not raise. -/
theorem C5_witness :
    (dbTunnel.stop (.ok ())).1 = .ok () ∧
    ((dbTunnel.stop (.ok ())).2).is_active = false ∧
    ((dbTunnel.stop (.ok ())).2)._tunnel = none :=
  C5_stop_best_effort dbTunnel (.ok ()) (Or.inl rfl)

/-- C6 counterexample: when the connect attempt fails, `start()` propagates
the raw underlying error (no ConnectionError wrapper carrying the tunnel's
name) and the tunnel does not remain unchanged — the handle created before
the connect attempt stays attached. -/
theorem C6_cex :
    (dbTunnel.start (.error "auth failed")).1 = .error "auth failed" ∧
    (dbTunnel.start (.error "auth failed")).2 ≠ dbTunnel :=
  ⟨rfl, by decide⟩

/-- C6 (amended): for an Inactive tunnel, a failed connect makes `start()`
propagate the underlying error unchanged, leaving `is_active()` false but
with a (non-live) handle now attached; a successful connect makes
`is_active()` report true. -/
theorem C6_start_failure (t : SSHTunnel) (connect : Except String Unit)
    (h : t.is_active = false) :
    (∀ e, connect = .error e →
      (t.start connect).1 = .error e ∧
      ((t.start connect).2).is_active = false ∧
      ((t.start connect).2)._tunnel ≠ none) ∧
    (connect = .ok () →
      (t.start connect).1 = .ok () ∧ ((t.start connect).2).is_active = true) := by
  cases ht : t._tunnel with
  | none =>
    constructor
    · intro e he; subst he
      simp [SSHTunnel.start, SSHTunnel.is_active, ht]
    · intro he; subst he
      simp [SSHTunnel.start, SSHTunnel.is_active, ht]
  | some f0 =>
    have hf : f0.is_active = false := by
      simpa [SSHTunnel.is_active, ht] using h
    constructor
    · intro e he; subst he
      simp [SSHTunnel.start, SSHTunnel.is_active, ht, hf]
    · intro he; subst he
      simp [SSHTunnel.start, SSHTunnel.is_active, ht, hf]

/-- C6 witness: the section 8 tunnel, started against an unreachable server,
reports the underlying error, stays inactive, and now holds a handle. -/
theorem C6_witness :
    (dbTunnel.start (.error "unreachable")).1 = .error "unreachable" ∧
    ((dbTunnel.start (.error "unreachable")).2).is_active = false ∧
    ((dbTunnel.start (.error "unreachable")).2)._tunnel ≠ none :=
  (C6_start_failure dbTunnel (.error "unreachable") rfl).1 "unreachable" rfl

/-- C7: `encrypt` returns the base64 encoding of `salt ++ iv ++ ciphertext`
with the ciphertext the AES-CBC encryption (key derived from the password and
salt) of the PKCS#7-padded UTF-8 message bytes; and `decrypt` splits the
decoded blob back into exactly that 16-byte salt, 16-byte IV and ciphertext
remainder, re-deriving the key from the recovered salt. -/
theorem C7_encrypt_format (lib : ExtLib) (salt iv : Bytes)
    (message password : String)
    (hsalt : salt.length = 16) (hiv : iv.length = 16)
    (hctlen : (lib.aesCbcEnc (derive_key lib password salt 32) iv
      (pkcs7pad (lib.utf8enc message))).length % 16 = 0)
    (hb64 : lib.b64decode (encrypt lib salt iv message password) =
      .ok (salt ++ iv ++ lib.aesCbcEnc (derive_key lib password salt 32) iv
        (pkcs7pad (lib.utf8enc message)))) :
    encrypt lib salt iv message password =
      lib.b64encode (salt ++ iv ++ lib.aesCbcEnc (derive_key lib password salt 32)
        iv (pkcs7pad (lib.utf8enc message))) ∧
    decrypt lib (encrypt lib salt iv message password) password =
      match pkcs7unpad (lib.aesCbcDec (derive_key lib password salt 32) iv
          (lib.aesCbcEnc (derive_key lib password salt 32) iv
            (pkcs7pad (lib.utf8enc message)))) with
      | .error er => .error er
      | .ok m => lib.utf8dec m := by
  refine ⟨rfl, ?_⟩
  have h := decrypt_splits lib salt iv
    (lib.aesCbcEnc (derive_key lib password salt 32) iv
      (pkcs7pad (lib.utf8enc message))) password _ hsalt hiv hb64
  rw [if_neg (by simp [hctlen])] at h
  exact h

/-- C7 witness: under the concrete collaborator instance the section 8
password decrypts its own encryption, exercising the layout theorem. -/
theorem C7_witness :
    decrypt toyLib (encrypt toyLib salt16 iv16 "msg" "hunter2") "hunter2" =
      .ok "" := by
  have h := C7_encrypt_format toyLib salt16 iv16 "msg" "hunter2"
    (by decide) (by decide) (by decide) rfl
  rw [h.2]
  rfl

/-- C8 counterexample: with an empty `host_ip` and no explicit `server_ip`,
the constructed tunnel's `server_ip` is the empty string, so `server_ip` is
not "never empty once constructed". -/
theorem C8_cex :
    (SSHTunnel.init 5432 "" 5432 "alice" "secret" "db" "127.0.0.1"
      none 22).server_ip = "" := rfl

/-- C8 (amended): constructing without an explicit `server_ip` yields
`server_ip == host_ip` (applied at construction time), and the result is
non-empty whenever `host_ip` is non-empty — with an empty `host_ip` the
stored `server_ip` is empty too. -/
theorem C8_server_ip_default (local_port host_port server_port : Int)
    (host_ip user password name local_ip : String) :
    (SSHTunnel.init local_port host_ip host_port user password name local_ip
      none server_port).server_ip = host_ip ∧
    (host_ip ≠ "" →
      (SSHTunnel.init local_port host_ip host_port user password name local_ip
        none server_port).server_ip ≠ "") := by
  refine ⟨rfl, ?_⟩
  intro h
  simpa [SSHTunnel.init] using h

/-- C8 witness: the section 8 field values, constructed without a
`server_ip`, default it to the non-empty `host_ip`. -/
theorem C8_witness :
    (SSHTunnel.init 5432 "10.0.0.5" 5432 "alice" "secret" "db" "127.0.0.1"
      none 22).server_ip = "10.0.0.5" ∧
    (SSHTunnel.init 5432 "10.0.0.5" 5432 "alice" "secret" "db" "127.0.0.1"
      none 22).server_ip ≠ "" :=
  ⟨(C8_server_ip_default 5432 5432 22 "10.0.0.5" "alice" "secret" "db"
      "127.0.0.1").1,
    (C8_server_ip_default 5432 5432 22 "10.0.0.5" "alice" "secret" "db"
      "127.0.0.1").2 (by decide)⟩

/-- C9: `derive_key` is a deterministic function of password, salt and
length, equal to PBKDF2 over the library PRF (HMAC-SHA-256) at 100000
iterations on the UTF-8 password bytes, and returns exactly `length` bytes
whenever the PRF produces 32-byte outputs. -/
theorem C9_derive_key (lib : ExtLib) (password : String) (salt : Bytes)
    (len : Nat) (hprf : ∀ k m, (lib.prf k m).length = 32) :
    (derive_key lib password salt len).length = len ∧
    derive_key lib password salt len =
      pbkdf2 lib.prf (lib.utf8enc password) salt 100000 len ∧
    (∀ password2 salt2, password2 = password → salt2 = salt →
      derive_key lib password2 salt2 len = derive_key lib password salt len) := by
  refine ⟨?_, rfl, ?_⟩
  · exact pbkdf2_length lib.prf _ salt hprf 100000 len
  · intro p2 s2 hp hs; rw [hp, hs]

/-- C9 witness: the default 32-byte key length at a concrete password and
salt under the concrete PRF instance. -/
theorem C9_witness : (derive_key toyLib "hunter2" salt16 32).length = 32 :=
  (C9_derive_key toyLib "hunter2" salt16 32
    (fun k m => by simp [toyLib, toyPrf])).1

/-- C10 counterexample: with an empty `host_ip`, an explicitly supplied empty
`server_ip` is stored as the empty string, so an empty `server_ip` can be
stored. -/
theorem C10_cex :
    (SSHTunnel.init 5432 "" 5432 "alice" "secret" "db" "127.0.0.1"
      (some "") 22).server_ip = "" := rfl

/-- C10 (amended): an explicitly supplied empty-string `server_ip` triggers
the same defaulting as an absent one (construction tests Python falsiness,
not absence), yielding `server_ip == host_ip`; consequently the stored
`server_ip` is empty exactly when `host_ip` is empty. -/
theorem C10_empty_server_ip_falsy (local_port host_port server_port : Int)
    (host_ip user password name local_ip : String) :
    (SSHTunnel.init local_port host_ip host_port user password name local_ip
      (some "") server_port).server_ip = host_ip ∧
    ((SSHTunnel.init local_port host_ip host_port user password name local_ip
      (some "") server_port).server_ip = "" ↔ host_ip = "") := by
  constructor
  · simp [SSHTunnel.init]
  · simp [SSHTunnel.init]

end PFG
